import Mathlib

/-!
Verification of the sane-rs SANE network-protocol client codec.

The Rust source is shallowly embedded: the byte stream is a finite list of
natural numbers below 256, read from the front.  Every decoder returns the
decoded value together with the unread remainder of the stream, or an error.
Rust `Result<T, Error>` becomes `Except Err`; a Rust panic (an `unwrap`,
`assert!` or explicit `panic!` macro call, which aborts the program instead
of returning an error value) is modelled by the distinguished error
constructor `Err.panicked`, so that crashing and returning a typed error are
distinguishable outcomes of the model.
-/

namespace SaneRs

abbrev Byte := Nat

/-- The 12-valued status enumeration from src/status.rs. -/
inductive Status
  | Success | Unsupported | Canceled | DeviceBusy | Invalid | EndOfFile
  | Jammed | NoDocuments | CoverOpen | IOError | OutOfMemory | AccessDenied
  deriving DecidableEq

/-- The error taxonomy from src/error.rs, extended with `panicked` which
models a Rust panic (program abort), not a value of the source `Error` enum. -/
inductive Err
  | sanedError (s : Status)
  | invalidSaneFieldValue (msg : String) (v : Int)
  | badNetworkDataError (msg : String)
  | fromUtf8Error
  | ioError
  | noneError
  | panicked (msg : String)
  deriving DecidableEq

def unwrapMsg : String := "called unwrap on an Err value"

def assertSizeMsg : String := "assertion failed: self.size() == value_size"

def assertResourceMsg : String := "assertion failed: resource.is_none()"

def lenAssertMsg : String := "assertion failed: string.len() == length as usize"

def statusPanicMsg (v : Int) : String := s!"Unknown status {v}!"

def noConstraintMsg : String :=
  "Received a constraint on an option field that should not have constraints!"

def numConstraintMsg : String := "Received invalid value for Numerical Contraint field"

def strConstraintMsg : String := "Received invalid value for String Contraint field"

def optionValueTypeMsg : String := "Received invalid value for OptionValueType field"

def optionUnitMsg : String := "Received invalid value for OptionUnit field"

def stringTooLongMsg (n : Nat) : String :=
  s!"String length of {n} exceeds maximum possible length of 2147483647!"

abbrev Decoder (α : Type) := List Byte → Except Err (α × List Byte)

/-- `read_u32::<BigEndian>`: four bytes, most significant first.  Fewer than
four bytes available is a short read, surfaced as an io error by byteorder. -/
def readU32 : List Byte → Except Err (Nat × List Byte)
  | b0 :: b1 :: b2 :: b3 :: rest =>
      .ok (((b0 * 256 + b1) * 256 + b2) * 256 + b3, rest)
  | _ => .error .ioError

/-- Two's-complement reinterpretation of a 32-bit word. -/
def toSigned (u : Nat) : Int :=
  if u < 2147483648 then (u : Int) else (u : Int) - 4294967296

/-- `read_i32::<BigEndian>`. -/
def readI32 (bytes : List Byte) : Except Err (Int × List Byte) :=
  match readU32 bytes with
  | .ok (u, rest) => .ok (toSigned u, rest)
  | .error e => .error e

/-- Big-endian byte expansion of a value already reduced below 2^32. -/
def u32Bytes (u : Nat) : List Byte :=
  [u / 16777216 % 256, u / 65536 % 256, u / 256 % 256, u % 256]

/-- `write_u32::<BigEndian>`. -/
def writeU32 (u : Nat) : List Byte := u32Bytes (u % 4294967296)

/-- `write_i32::<BigEndian>`: two's-complement encoding of the word. -/
def writeI32 (v : Int) : List Byte := u32Bytes ((v % 4294967296).toNat)

/-- Wrap-around of 32-bit signed addition (Rust release-mode overflow). -/
def wrapI32 (x : Int) : Int := (x + 2147483648) % 4294967296 - 2147483648

/-- `impl TryFromStream for bool` (src/types/std.rs): a 4-byte word, true iff
the value is exactly 1. -/
def decodeBool (bytes : List Byte) : Except Err (Bool × List Byte) :=
  match readU32 bytes with
  | .ok (u, rest) => .ok (decide (u = 1), rest)
  | .error e => .error e

/-- `impl TryFromStream for i32`: io failure is converted into the typed
`Error::IOError` and returned. -/
def decodeI32 : Decoder Int := readI32

/-- `impl TryFromStream for u32`. -/
def decodeU32 : Decoder Nat := readU32

def isCont (b : Byte) : Bool := 128 ≤ b && b ≤ 191

/-- UTF-8 validity of a byte sequence, as checked by Rust
`String::from_utf8` (the table of well-formed sequences from the Unicode
standard: overlong encodings, surrogates and values above U+10FFFF are
rejected). -/
def validUtf8 : List Byte → Bool
  | [] => true
  | b :: rest =>
    if b ≤ 127 then validUtf8 rest
    else if 194 ≤ b && b ≤ 223 then
      match rest with
      | c :: r => isCont c && validUtf8 r
      | [] => false
    else if b = 224 then
      match rest with
      | c :: d :: r => (160 ≤ c && c ≤ 191) && isCont d && validUtf8 r
      | _ => false
    else if (225 ≤ b && b ≤ 236) || b = 238 || b = 239 then
      match rest with
      | c :: d :: r => isCont c && isCont d && validUtf8 r
      | _ => false
    else if b = 237 then
      match rest with
      | c :: d :: r => (128 ≤ c && c ≤ 159) && isCont d && validUtf8 r
      | _ => false
    else if b = 240 then
      match rest with
      | c :: d :: e :: r => (144 ≤ c && c ≤ 191) && isCont d && isCont e && validUtf8 r
      | _ => false
    else if 241 ≤ b && b ≤ 243 then
      match rest with
      | c :: d :: e :: r => isCont c && isCont d && isCont e && validUtf8 r
      | _ => false
    else if b = 244 then
      match rest with
      | c :: d :: e :: r => (128 ≤ c && c ≤ 143) && isCont d && isCont e && validUtf8 r
      | _ => false
    else false

def notNulByte (b : Byte) : Bool := b != 0

/-- `impl TryFromStream for Option<String>` (src/types/std.rs, rule A).
The 4-byte signed length is read with `.unwrap()`, so a short read there is
a panic.  A non-positive length yields `None`.  Otherwise bytes are pulled
one at a time from `stream.take(size)`: the pull stops at the first NUL byte
(which is consumed and discarded) or at the end of the window or stream,
and the collected bytes must be valid UTF-8.  A Rust `String` is represented
by its UTF-8 byte list. -/
def decodeOptString (bytes : List Byte) : Except Err (Option (List Byte) × List Byte) :=
  match readI32 bytes with
  | .error _ => .error (.panicked unwrapMsg)
  | .ok (size, rest) =>
    if size ≤ 0 then .ok (none, rest)
    else
      let avail := rest.take size.toNat
      let payload := avail.takeWhile notNulByte
      let consumed := if payload.length < avail.length then payload.length + 1
                      else payload.length
      if validUtf8 payload then .ok (some payload, rest.drop consumed)
      else .error .fromUtf8Error

/-- `write_string` (src/lib.rs): rejects strings longer than `i32::MAX`,
then writes `len+1` as a 4-byte word, the raw bytes, and a single NUL.  The
`len+1` addition is 32-bit; at `len = i32::MAX` it overflows (wraps in a
release build, panics in a debug build — either way the emitted length word
is not `len+1`). -/
def write_string (s : List Byte) : Except Err (List Byte) :=
  if 2147483647 < (s.length : Int) then
    .error (.badNetworkDataError (stringTooLongMsg s.length))
  else if s.length ≠ ((s.length : Int)).toNat then
    .error (.panicked lenAssertMsg)
  else
    .ok (writeI32 (wrapI32 ((s.length : Int) + 1)) ++ s ++ [0])

/-- `impl<T> TryFromStream for Option<T>` (src/types/std.rs, rule B
"pointer" decode).  The 4-byte tag is read with `.unwrap()` (panic on short
read); tag 0 means present, any other tag means absent with no further
bytes consumed. -/
def decodeOption (dec : Decoder α) : Decoder (Option α) := fun bytes =>
  match readI32 bytes with
  | .error _ => .error (.panicked unwrapMsg)
  | .ok (isNull, rest) =>
    if isNull = 0 then
      match dec rest with
      | .ok (v, r) => .ok (some v, r)
      | .error e => .error e
    else .ok (none, rest)

/-- `impl<T> WriteToStream for Option<T>` (rule B encode): `None` writes
the word 1 followed by a 0 placeholder word; `Some` writes only the word 0
(the pointed-to value is written by the caller afterwards). -/
def optionWriteTo (value : Option α) : List Byte :=
  match value with
  | none => writeI32 1 ++ writeI32 0
  | some _ => writeI32 0

/-- Decode a fixed number of consecutive elements. -/
def decodeN (dec : Decoder α) : Nat → Decoder (List α)
  | 0 => fun bytes => .ok ([], bytes)
  | n + 1 => fun bytes =>
    match dec bytes with
    | .error e => .error e
    | .ok (v, r) =>
      match decodeN dec n r with
      | .error e => .error e
      | .ok (vs, r2) => .ok (v :: vs, r2)

/-- `vec.truncate((size - 1) as usize)`: the `as usize` cast of the 32-bit
`size - 1` is a 64-bit wrap, so `size = 0` gives a huge bound (truncate is
then a no-op on the already-empty vector). -/
def truncArg (size : Int) : Nat := ((size - 1) % 18446744073709551616).toNat

/-- `impl<T> TryFromStream for Vec<T>` (src/types/std.rs): read a 4-byte
signed count with `.unwrap()`, decode that many elements with `T`'s own
decoder (a negative count decodes no elements), then unconditionally drop
the trailing slot by truncating to `size - 1` elements.  No check is made
that the dropped element was absent. -/
def decodeVec (dec : Decoder α) : Decoder (List α) := fun bytes =>
  match readI32 bytes with
  | .error _ => .error (.panicked unwrapMsg)
  | .ok (size, rest) =>
    match decodeN dec size.toNat rest with
    | .error e => .error e
    | .ok (arr, r2) => .ok (arr.take (truncArg size), r2)

/-- `impl From<i32> for Status` (src/status.rs): codes 0 through 11 select
the twelve variants; any other code hits `panic!("Unknown status {}!")`. -/
def Status.fromI32 (v : Int) : Except Err Status :=
  if v = 0 then .ok .Success
  else if v = 1 then .ok .Unsupported
  else if v = 2 then .ok .Canceled
  else if v = 3 then .ok .DeviceBusy
  else if v = 4 then .ok .Invalid
  else if v = 5 then .ok .EndOfFile
  else if v = 6 then .ok .Jammed
  else if v = 7 then .ok .NoDocuments
  else if v = 8 then .ok .CoverOpen
  else if v = 9 then .ok .IOError
  else if v = 10 then .ok .OutOfMemory
  else if v = 11 then .ok .AccessDenied
  else .error (.panicked (statusPanicMsg v))

/-- The evident wire code of each status variant (inverse reading of the
`From<i32>` table), used to state the bijectivity of the mapping. -/
def Status.code : Status → Int
  | .Success => 0
  | .Unsupported => 1
  | .Canceled => 2
  | .DeviceBusy => 3
  | .Invalid => 4
  | .EndOfFile => 5
  | .Jammed => 6
  | .NoDocuments => 7
  | .CoverOpen => 8
  | .IOError => 9
  | .OutOfMemory => 10
  | .AccessDenied => 11

/-- `read_status` (src/lib.rs): the word is read with `?` (io error is
returned), then converted with `Status::from` (panic on unknown code). -/
def read_status (bytes : List Byte) : Except Err (Status × List Byte) :=
  match readI32 bytes with
  | .error e => .error e
  | .ok (v, rest) =>
    match Status.fromI32 v with
    | .ok st => .ok (st, rest)
    | .error e => .error e

/-- `check_success_status` (src/lib.rs): any status other than `Success`
becomes `Err(Error::SanedError(status))`. -/
def check_success_status (bytes : List Byte) : Except Err (Unit × List Byte) :=
  match read_status bytes with
  | .error e => .error e
  | .ok (.Success, rest) => .ok ((), rest)
  | .ok (st, _) => .error (.sanedError st)

/-- The option value type tag (src/types/mod.rs). -/
inductive OptionValueType
  | Boolean | Integer | Fixed | String | Button | Group
  deriving DecidableEq

/-- `impl TryFromStream for OptionValueType`: codes 0..5, anything else is
a returned `InvalidSaneFieldValue` error. -/
def decodeOptionValueType (bytes : List Byte) : Except Err (OptionValueType × List Byte) :=
  match readI32 bytes with
  | .error e => .error e
  | .ok (v, rest) =>
    if v = 0 then .ok (.Boolean, rest)
    else if v = 1 then .ok (.Integer, rest)
    else if v = 2 then .ok (.Fixed, rest)
    else if v = 3 then .ok (.String, rest)
    else if v = 4 then .ok (.Button, rest)
    else if v = 5 then .ok (.Group, rest)
    else .error (.invalidSaneFieldValue optionValueTypeMsg v)

/-- The option unit tag (src/types/mod.rs). -/
inductive OptionUnit
  | None | Pixel | Bit | Millimeter | DPI | Percent | Microsecond
  deriving DecidableEq

/-- `impl TryFromStream for OptionUnit`: codes 0..6, anything else is a
returned `InvalidSaneFieldValue` error. -/
def decodeOptionUnit (bytes : List Byte) : Except Err (OptionUnit × List Byte) :=
  match readI32 bytes with
  | .error e => .error e
  | .ok (v, rest) =>
    if v = 0 then .ok (.None, rest)
    else if v = 1 then .ok (.Pixel, rest)
    else if v = 2 then .ok (.Bit, rest)
    else if v = 3 then .ok (.Millimeter, rest)
    else if v = 4 then .ok (.DPI, rest)
    else if v = 5 then .ok (.Percent, rest)
    else if v = 6 then .ok (.Microsecond, rest)
    else .error (.invalidSaneFieldValue optionUnitMsg v)

/-- `Capabilities::from_bits_truncate`: the seven known flag bits are kept,
unknown bits are dropped.  The bitset is carried as the masked word. -/
def decodeCapabilities (bytes : List Byte) : Except Err (Nat × List Byte) :=
  match readU32 bytes with
  | .ok (u, rest) => .ok (u &&& 127, rest)
  | .error e => .error e

/-- `ControlOptionSetInfo::from_bits_truncate`: flag bits 0x1, 0x2, 0x4. -/
def decodeSetInfo (bytes : List Byte) : Except Err (Nat × List Byte) :=
  match readU32 bytes with
  | .ok (u, rest) => .ok (u &&& 7, rest)
  | .error e => .error e

/-- The numeric range of a numerical constraint (src/types/mod.rs). -/
structure Range where
  min : Int
  max : Int
  quant : Int
  deriving DecidableEq

/-- `impl TryFromStream for Range`: three consecutive i32 words. -/
def decodeRange (bytes : List Byte) : Except Err (Range × List Byte) :=
  match readI32 bytes with
  | .error e => .error e
  | .ok (mn, b1) =>
  match readI32 b1 with
  | .error e => .error e
  | .ok (mx, b2) =>
  match readI32 b2 with
  | .error e => .error e
  | .ok (q, b3) => .ok (⟨mn, mx, q⟩, b3)

inductive NumericalConstraint
  | IntegerList (l : List Int)
  | Range (r : Option Range)
  deriving DecidableEq

inductive StringListConstraint
  | mk (l : List (List Byte))
  deriving DecidableEq

/-- `impl TryFromStream for Option<NumericalConstraint>`: tag 0 is "no
constraint", 1 a range behind a rule-B pointer, 2 an integer list; any
other tag is a returned `InvalidSaneFieldValue` error. -/
def decodeNumericalConstraint (bytes : List Byte) :
    Except Err (Option NumericalConstraint × List Byte) :=
  match readI32 bytes with
  | .error e => .error e
  | .ok (t, rest) =>
    if t = 0 then .ok (none, rest)
    else if t = 1 then
      match decodeOption decodeRange rest with
      | .ok (r, r2) => .ok (some (.Range r), r2)
      | .error e => .error e
    else if t = 2 then
      match decodeVec decodeI32 rest with
      | .ok (l, r2) => .ok (some (.IntegerList l), r2)
      | .error e => .error e
    else .error (.invalidSaneFieldValue numConstraintMsg t)

/-- `impl TryFromStream for Option<StringListConstraint>`: tag 0 is "no
constraint", 3 an array of rule-A optional strings with the absent entries
filtered out; any other tag is a returned error. -/
def decodeStringListConstraint (bytes : List Byte) :
    Except Err (Option StringListConstraint × List Byte) :=
  match readI32 bytes with
  | .error e => .error e
  | .ok (t, rest) =>
    if t = 0 then .ok (none, rest)
    else if t = 3 then
      match decodeVec decodeOptString rest with
      | .ok (l, r2) => .ok (some (.mk (l.filterMap id)), r2)
      | .error e => .error e
    else .error (.invalidSaneFieldValue strConstraintMsg t)

/-- `impl TryFromStream for NoConstraint`: only tag 0 is accepted, any
other tag is a returned `InvalidSaneFieldValue` error. -/
def decodeNoConstraint (bytes : List Byte) : Except Err (Unit × List Byte) :=
  match readI32 bytes with
  | .error e => .error e
  | .ok (t, rest) =>
    if t = 0 then .ok ((), rest)
    else .error (.invalidSaneFieldValue noConstraintMsg t)

/-- The `OptionDescriptor` variant record (src/types/mod.rs).  The unit-like
`NoConstraint` marker field carries no data and is dropped. -/
inductive OptionDescriptor
  | Boolean (name title description : List Byte) (unit : OptionUnit)
      (capabilities : Nat)
  | Integer (name title description : List Byte) (unit : OptionUnit)
      (size : Int) (capabilities : Nat) (constraint : Option NumericalConstraint)
  | Fixed (name title description : List Byte) (unit : OptionUnit)
      (size : Int) (capabilities : Nat) (constraint : Option NumericalConstraint)
  | String (name title description : List Byte) (unit : OptionUnit)
      (max_length : Int) (capabilities : Nat) (constraint : Option StringListConstraint)
  | Button (name title description : List Byte) (unit : OptionUnit)
      (capabilities : Nat)
  | Group (title : List Byte)
  deriving DecidableEq

/-- `OptionDescriptor::size`: 4 for Boolean, the `size` field for Integer
and Fixed, `max_length` for String, and 0 for every other variant. -/
def OptionDescriptor.size : OptionDescriptor → Int
  | .Boolean _ _ _ _ _ => 4
  | .Integer _ _ _ _ sz _ _ => sz
  | .Fixed _ _ _ _ sz _ _ => sz
  | .String _ _ _ _ ml _ _ => ml
  | .Button _ _ _ _ _ => 0
  | .Group _ => 0

/-- `impl From<&OptionDescriptor> for i32`: the serialized type tag. -/
def typeCode : OptionDescriptor → Int
  | .Boolean .. => 0
  | .Integer .. => 1
  | .Fixed .. => 2
  | .String .. => 3
  | .Button .. => 4
  | .Group .. => 5

inductive OptionValue
  | Boolean (b : Bool)
  | Integer (v : Int)
  | Fixed (v : Int)
  | String (s : Option (List Byte))
  | Button
  | Group
  deriving DecidableEq

/-- `ControlOptionResult`: the decoded option value (absent when the server
sent a null value pointer) and the set-info bitset. -/
structure ControlOptionResult where
  value : Option OptionValue
  info : Nat
  deriving DecidableEq

/-- `OptionDescriptor::read_value` (src/types/mod.rs): decode the set-info
bitset, a redundant value-type word, and the value-size word; the size must
equal the descriptor's own computed size — `assert_eq!` panics otherwise.
Then a null-check word is read: 0 means the value pointer is null (value
absent), any nonzero word means the value follows and is decoded according
to the descriptor's variant. -/
def OptionDescriptor.read_value (d : OptionDescriptor) (bytes : List Byte) :
    Except Err (ControlOptionResult × List Byte) :=
  match decodeSetInfo bytes with
  | .error e => .error e
  | .ok (info, b1) =>
  match readI32 b1 with
  | .error e => .error e
  | .ok (_, b2) =>
  match readI32 b2 with
  | .error e => .error e
  | .ok (value_size, b3) =>
  if d.size ≠ value_size then .error (.panicked assertSizeMsg)
  else
  match readU32 b3 with
  | .error e => .error e
  | .ok (w, b4) =>
  if w = 0 then .ok (⟨none, info⟩, b4)
  else
    match d with
    | .Boolean _ _ _ _ _ =>
      match decodeBool b4 with
      | .ok (v, r) => .ok (⟨some (.Boolean v), info⟩, r)
      | .error e => .error e
    | .Integer _ _ _ _ _ _ _ =>
      match readI32 b4 with
      | .ok (v, r) => .ok (⟨some (.Integer v), info⟩, r)
      | .error e => .error e
    | .Fixed _ _ _ _ _ _ _ =>
      match readI32 b4 with
      | .ok (v, r) => .ok (⟨some (.Fixed v), info⟩, r)
      | .error e => .error e
    | .String _ _ _ _ _ _ _ =>
      match decodeOptString b4 with
      | .ok (v, r) => .ok (⟨some (.String v), info⟩, r)
      | .error e => .error e
    | .Button _ _ _ _ _ => .ok (⟨some .Button, info⟩, b4)
    | .Group _ => .ok (⟨some .Group, info⟩, b4)

/-- `impl TryFromStream for OptionDescriptor`: three rule-A optional
strings, the type tag, the unit tag, the size word, the capability bitset,
then the constraint branch selected by the type tag.  A structurally absent
name/title/description that the variant requires is a `NoneError` (the `?`
on the `Option`), raised before the constraint is read. -/
def decodeOptionDescriptor (bytes : List Byte) :
    Except Err (OptionDescriptor × List Byte) :=
  match decodeOptString bytes with
  | .error e => .error e
  | .ok (name, b1) =>
  match decodeOptString b1 with
  | .error e => .error e
  | .ok (title, b2) =>
  match decodeOptString b2 with
  | .error e => .error e
  | .ok (description, b3) =>
  match decodeOptionValueType b3 with
  | .error e => .error e
  | .ok (kind, b4) =>
  match decodeOptionUnit b4 with
  | .error e => .error e
  | .ok (unit, b5) =>
  match readI32 b5 with
  | .error e => .error e
  | .ok (size, b6) =>
  match decodeCapabilities b6 with
  | .error e => .error e
  | .ok (capabilities, b7) =>
  match kind with
  | .Boolean =>
    match name, title, description with
    | none, _, _ => .error .noneError
    | some _, none, _ => .error .noneError
    | some _, some _, none => .error .noneError
    | some nm, some ti, some de =>
      match decodeNoConstraint b7 with
      | .error e => .error e
      | .ok (_, b8) => .ok (.Boolean nm ti de unit capabilities, b8)
  | .Integer =>
    match name, title, description with
    | none, _, _ => .error .noneError
    | some _, none, _ => .error .noneError
    | some _, some _, none => .error .noneError
    | some nm, some ti, some de =>
      match decodeNumericalConstraint b7 with
      | .error e => .error e
      | .ok (c, b8) => .ok (.Integer nm ti de unit size capabilities c, b8)
  | .Fixed =>
    match name, title, description with
    | none, _, _ => .error .noneError
    | some _, none, _ => .error .noneError
    | some _, some _, none => .error .noneError
    | some nm, some ti, some de =>
      match decodeNumericalConstraint b7 with
      | .error e => .error e
      | .ok (c, b8) => .ok (.Fixed nm ti de unit size capabilities c, b8)
  | .String =>
    match name, title, description with
    | none, _, _ => .error .noneError
    | some _, none, _ => .error .noneError
    | some _, some _, none => .error .noneError
    | some nm, some ti, some de =>
      match decodeStringListConstraint b7 with
      | .error e => .error e
      | .ok (c, b8) => .ok (.String nm ti de unit size capabilities c, b8)
  | .Button =>
    match name, title, description with
    | none, _, _ => .error .noneError
    | some _, none, _ => .error .noneError
    | some _, some _, none => .error .noneError
    | some nm, some ti, some de =>
      match decodeNoConstraint b7 with
      | .error e => .error e
      | .ok (_, b8) => .ok (.Button nm ti de unit capabilities, b8)
  | .Group =>
    match title with
    | none => .error .noneError
    | some ti =>
      match decodeNoConstraint b7 with
      | .error e => .error e
      | .ok (_, b8) => .ok (.Group ti, b8)

/-- The control action tag (src/lib.rs). -/
inductive ControlAction
  | Get | Set | SetAutomatic
  deriving DecidableEq

def ControlAction.toI32 : ControlAction → Int
  | .Get => 0
  | .Set => 1
  | .SetAutomatic => 2

/-- `control_option` (src/lib.rs).  The request is written first: command
code 5, handle, option index, action tag, the descriptor's type tag, the
descriptor's size, then the rule-B-wrapped outgoing value.  The response is
then read: status check, `read_value`, and a trailing rule-A optional
resource string which is asserted absent (`assert!` panics on a present
resource).  The first component is the operation's result with the unread
remainder of the stream; the second is the full byte sequence written. -/
def control_option (handle : Int) (idx : Nat) (action : ControlAction)
    (kind : OptionDescriptor) (value : Option α) (stream : List Byte) :
    Except Err (ControlOptionResult × List Byte) × List Byte :=
  let written := writeI32 5 ++ writeI32 handle ++ writeU32 idx ++
    writeI32 action.toI32 ++ writeI32 (typeCode kind) ++ writeI32 kind.size ++
    optionWriteTo value
  let result : Except Err (ControlOptionResult × List Byte) :=
    match check_success_status stream with
    | .error e => .error e
    | .ok (_, s1) =>
    match kind.read_value s1 with
    | .error e => .error e
    | .ok (res, s2) =>
    match decodeOptString s2 with
    | .error e => .error e
    | .ok (resource, s3) =>
    match resource with
    | some _ => .error (.panicked assertResourceMsg)
    | none => .ok (res, s3)
  (result, written)

/-- The bytes `init` writes: handshake word 0, the protocol version word
`0x01000003`, and the identity string "Foobar" in wire encoding. -/
def initWritten : List Byte :=
  writeU32 0 ++ writeU32 16777219 ++ writeI32 7 ++ [70, 111, 111, 98, 97, 114] ++ [0]

/-- `init` (src/lib.rs): writes the handshake, version and identity, then
calls `check_success_status` but discards its result with `.ok()`, and
unconditionally reads the server version word with `.unwrap()`.  A short
read of the status word leaves nothing for the version word either, so the
version `unwrap` panics; a status word outside 0..11 panics inside
`Status::from`; any other status value — Success or not — is swallowed and
init proceeds.  `init` returns no `Result` at all; the model returns the
unread remainder of the stream (or the panic) plus the bytes written. -/
def init (stream : List Byte) : Except Err (List Byte) × List Byte :=
  let result : Except Err (List Byte) :=
    match readI32 stream with
    | .error _ => .error (.panicked unwrapMsg)
    | .ok (v, rest) =>
      match Status.fromI32 v with
      | .error e => .error e
      | .ok _ =>
        match readU32 rest with
        | .error _ => .error (.panicked unwrapMsg)
        | .ok (_, rest2) => .ok rest2
  (result, initWritten)

/-- `open_device` result (src/lib.rs). -/
inductive OpenResult
  | Handle (h : Int)
  | AuthRequired (resource : List Byte)
  deriving DecidableEq

/-- `open_device` (src/lib.rs): writes command code 2 and the device name,
checks the status, reads the handle with `.unwrap()` (panic on short read),
then a rule-A optional resource string: a present resource means
authentication is required, an absent one yields the handle. -/
def open_device (deviceName : List Byte) (stream : List Byte) :
    Except Err (OpenResult × List Byte) × List Byte :=
  match write_string deviceName with
  | .error e => (.error e, writeI32 2)
  | .ok enc =>
    let written := writeI32 2 ++ enc
    let result : Except Err (OpenResult × List Byte) :=
      match check_success_status stream with
      | .error e => .error e
      | .ok (_, s1) =>
      match readI32 s1 with
      | .error _ => .error (.panicked unwrapMsg)
      | .ok (handle, s2) =>
      match decodeOptString s2 with
      | .error e => .error e
      | .ok (resource, s3) =>
      match resource with
      | none => .ok (.Handle handle, s3)
      | some r => .ok (.AuthRequired r, s3)
    (result, written)

/-- `close_device` (src/lib.rs): writes command code 3 and the handle, then
reads the dummy word with `.unwrap()` (panic on short read) and ignores it. -/
def close_device (handle : Int) (stream : List Byte) :
    Except Err (List Byte) × List Byte :=
  let written := writeI32 3 ++ writeI32 handle
  let result : Except Err (List Byte) :=
    match readI32 stream with
    | .error _ => .error (.panicked unwrapMsg)
    | .ok (_, rest) => .ok rest
  (result, written)

/-! ## Helper lemmas about the primitive codecs -/

theorem readU32_u32Bytes (u : Nat) (rest : List Byte) (h : u < 4294967296) :
    readU32 (u32Bytes u ++ rest) = .ok (u, rest) := by
  show Except.ok (((u / 16777216 % 256 * 256 + u / 65536 % 256) * 256 + u / 256 % 256) * 256
      + u % 256, rest) = Except.ok (u, rest)
  have : ((u / 16777216 % 256 * 256 + u / 65536 % 256) * 256 + u / 256 % 256) * 256
      + u % 256 = u := by omega
  rw [this]

theorem readI32_writeI32 (v : Int) (rest : List Byte)
    (h1 : -2147483648 ≤ v) (h2 : v < 2147483648) :
    readI32 (writeI32 v ++ rest) = .ok (v, rest) := by
  have hu : (v % 4294967296).toNat < 4294967296 := by omega
  unfold readI32 writeI32
  rw [readU32_u32Bytes _ _ hu]
  show Except.ok (toSigned (v % 4294967296).toNat, rest) = Except.ok (v, rest)
  have : toSigned (v % 4294967296).toNat = v := by
    unfold toSigned
    split <;> omega
  rw [this]

theorem readU32_short (bytes : List Byte) (h : bytes.length < 4) :
    readU32 bytes = .error .ioError := by
  rcases bytes with _ | ⟨a, _ | ⟨b, _ | ⟨c, _ | ⟨d, t⟩⟩⟩⟩
  · rfl
  · rfl
  · rfl
  · rfl
  · simp only [List.length_cons] at h
    exact absurd h (by omega)

theorem readI32_short (bytes : List Byte) (h : bytes.length < 4) :
    readI32 bytes = .error .ioError := by
  unfold readI32
  rw [readU32_short bytes h]

theorem readU32_of_length (bytes : List Byte) (h : 4 ≤ bytes.length) :
    ∃ u, readU32 bytes = .ok (u, bytes.drop 4) := by
  rcases bytes with _ | ⟨a, _ | ⟨b, _ | ⟨c, _ | ⟨d, t⟩⟩⟩⟩
  · simp at h
  · simp at h
  · simp at h
  · simp at h
  · exact ⟨_, rfl⟩

theorem wrapI32_eq (x : Int) (h1 : -2147483648 ≤ x) (h2 : x < 2147483648) :
    wrapI32 x = x := by
  unfold wrapI32
  omega

theorem fromI32_ok_of_range (v : Int) (h1 : 0 ≤ v) (h2 : v ≤ 11) :
    ∃ s, Status.fromI32 v = .ok s := by
  interval_cases v <;> exact ⟨_, rfl⟩

theorem fromI32_out_of_range (v : Int) (hv : v < 0 ∨ 11 < v) :
    Status.fromI32 v = .error (.panicked (statusPanicMsg v)) := by
  have hk : ∀ k : Int, 0 ≤ k → k < 12 → v ≠ k := by
    intro k hk1 hk2
    omega
  unfold Status.fromI32
  rw [if_neg (hk 0 le_rfl (by norm_num)), if_neg (hk 1 one_pos.le (by norm_num)),
    if_neg (hk 2 (by norm_num) (by norm_num)), if_neg (hk 3 (by norm_num) (by norm_num)),
    if_neg (hk 4 (by norm_num) (by norm_num)), if_neg (hk 5 (by norm_num) (by norm_num)),
    if_neg (hk 6 (by norm_num) (by norm_num)), if_neg (hk 7 (by norm_num) (by norm_num)),
    if_neg (hk 8 (by norm_num) (by norm_num)), if_neg (hk 9 (by norm_num) (by norm_num)),
    if_neg (hk 10 (by norm_num) (by norm_num)), if_neg (hk 11 (by norm_num) (by norm_num))]

/-! ## Helper lemmas about lists and the rule-A string codec -/

theorem takeWhile_append_nul (s t : List Byte) (h : ∀ b ∈ s, b ≠ 0) :
    (s ++ 0 :: t).takeWhile notNulByte = s := by
  induction s with
  | nil => simp [List.takeWhile_cons, notNulByte]
  | cons a as ih =>
    have ha : notNulByte a = true := by
      have := h a (by simp)
      simpa [notNulByte, bne_iff_ne] using this
    have ih2 := ih (fun b hb => h b (by simp [hb]))
    simp [List.takeWhile_cons, ha, ih2]

theorem takeWhile_all_nonul (s : List Byte) (h : ∀ b ∈ s, b ≠ 0) :
    s.takeWhile notNulByte = s := by
  induction s with
  | nil => rfl
  | cons a as ih =>
    have ha : notNulByte a = true := by
      have := h a (by simp)
      simpa [notNulByte, bne_iff_ne] using this
    have ih2 := ih (fun b hb => h b (by simp [hb]))
    simp [List.takeWhile_cons, ha, ih2]

theorem drop_append_cons (s t : List Byte) (x : Byte) :
    (s ++ x :: t).drop (s.length + 1) = t := by
  induction s with
  | nil => simp
  | cons a as ih => simp [ih]

theorem take_append_cons (s t : List Byte) (x : Byte) (k : Nat) (h : s.length < k) :
    (s ++ x :: t).take k = s ++ x :: t.take (k - s.length - 1) := by
  induction s generalizing k with
  | nil =>
    cases k with
    | zero => omega
    | succ m => simp
  | cons a as ih =>
    cases k with
    | zero => omega
    | succ m =>
      have hlen : as.length < m := by
        simp only [List.length_cons] at h
        omega
      have harith : m + 1 - (a :: as).length - 1 = m - as.length - 1 := by
        simp only [List.length_cons]
        omega
      rw [harith, List.cons_append, List.take_succ_cons, ih m hlen]
      simp

/-- Unfolding of the rule-A string decoder once its length word is known. -/
theorem decodeOptString_eq (bytes : List Byte) (n : Int) (rest : List Byte)
    (h : readI32 bytes = .ok (n, rest)) :
    decodeOptString bytes =
      if n ≤ 0 then .ok (none, rest)
      else
        let avail := rest.take n.toNat
        let payload := avail.takeWhile notNulByte
        let consumed := if payload.length < avail.length then payload.length + 1
                        else payload.length
        if validUtf8 payload then .ok (some payload, rest.drop consumed)
        else .error .fromUtf8Error := by
  unfold decodeOptString
  rw [h]

/-- The rule-A decode of a wire-encoded string whose NUL terminator lies
strictly inside the declared window: the decoder consumes exactly through
the NUL and leaves everything behind it unread. -/
theorem decodeOptString_nulstop (n : Int) (pre post : List Byte)
    (h0 : 0 < n) (h1 : n < 2147483648) (h2 : pre.length < n.toNat)
    (h3 : ∀ b ∈ pre, b ≠ 0) :
    decodeOptString (writeI32 n ++ (pre ++ 0 :: post)) =
      if validUtf8 pre then .ok (some pre, post) else .error .fromUtf8Error := by
  rw [decodeOptString_eq _ n _ (readI32_writeI32 n _ (by omega) h1)]
  rw [if_neg (by omega)]
  simp only [take_append_cons pre post 0 n.toNat h2, takeWhile_append_nul _ _ h3]
  have hlen : pre.length < (pre ++ 0 :: post.take (n.toNat - pre.length - 1)).length := by
    simp
  rw [if_pos hlen, drop_append_cons]

/-- The rule-A decode of a wire-encoded string with no NUL inside the
declared window and the window fully available: the decoder consumes the
whole window. -/
theorem decodeOptString_full (n : Int) (s post : List Byte)
    (h0 : 0 < n) (h1 : n < 2147483648) (h2 : s.length = n.toNat)
    (h3 : ∀ b ∈ s, b ≠ 0) :
    decodeOptString (writeI32 n ++ (s ++ post)) =
      if validUtf8 s then .ok (some s, post) else .error .fromUtf8Error := by
  rw [decodeOptString_eq _ n _ (readI32_writeI32 n _ (by omega) h1)]
  rw [if_neg (by omega)]
  have htake : (s ++ post).take n.toNat = s := by
    rw [← h2]
    exact List.take_left s post
  have hcons : (if s.length < s.length then s.length + 1 else s.length) = s.length := by
    simp
  simp only [htake, takeWhile_all_nonul _ h3, hcons]
  rw [List.drop_left s post]

theorem write_string_ok (s : List Byte) (h : (s.length : Int) ≤ 2147483647) :
    write_string s = .ok (writeI32 (wrapI32 ((s.length : Int) + 1)) ++ s ++ [0]) := by
  unfold write_string
  rw [if_neg (by omega), if_neg (by omega)]

/-! ## Concrete fixtures -/

/-- The Integer-typed descriptor named "test" from the `test_get_option`
test: unit `None`, size 4, empty capability set, no constraint.  The three
strings are the UTF-8 bytes of "test". -/
def testDesc : OptionDescriptor :=
  .Integer [116, 101, 115, 116] [116, 101, 115, 116] [116, 101, 115, 116] .None 4 0 none

/-- The response stream of the end-to-end scenario: words
00000000 00000000 00000001 00000004 00000001 00000019 00000000. -/
def c1Input : List Byte :=
  [0, 0, 0, 0, 0, 0, 0, 0, 0, 0, 0, 1, 0, 0, 0, 4, 0, 0, 0, 1, 0, 0, 0, 25, 0, 0, 0, 0]

/-- The expected request bytes of the end-to-end scenario: words
00000005 00000000 00000000 00000000 00000001 00000004 00000001 00000000. -/
def c1Written : List Byte :=
  [0, 0, 0, 5, 0, 0, 0, 0, 0, 0, 0, 0, 0, 0, 0, 0, 0, 0, 0, 1, 0, 0, 0, 4, 0, 0, 0, 1, 0, 0, 0, 0]

/-! ## Claim theorems -/

/-- C1: for the Integer-typed descriptor named "test" (unit None, size 4,
empty capabilities, no constraint), `control_option` with handle 0, option
index 0, action Get and no outgoing value, on the stream
00000000 00000000 00000001 00000004 00000001 00000019 00000000, returns
Ok with value Some(Integer 25) and an empty info bitset, consuming the
whole stream, and writes exactly the bytes
00000005 00000000 00000000 00000000 00000001 00000004 00000001 00000000. -/
theorem c1_end_to_end :
    control_option 0 0 .Get testDesc (none : Option Nat) c1Input =
      (.ok (⟨some (.Integer 25), 0⟩, []), c1Written) := by
  rfl

/-- C2 counterexample: the same nonzero tag word 1 makes the generic
`Option<T>` decoder return "absent", but makes the value slot of a
control-option response decode a **present** value: `read_value` on
info 0, type 1, size 4, null-check word 1, payload 25 yields
Some(Integer 25).  So the null check inside the control-option response
does not treat a nonzero tag as "absent" as the claim states — it treats
zero as the null pointer. -/
theorem c2_counterexample :
    decodeOption decodeI32 [0, 0, 0, 1] = .ok (none, []) ∧
    OptionDescriptor.read_value testDesc
        [0, 0, 0, 0, 0, 0, 0, 1, 0, 0, 0, 4, 0, 0, 0, 1, 0, 0, 0, 25] =
      .ok (⟨some (.Integer 25), 0⟩, []) :=
  ⟨rfl, rfl⟩

/-- C2 (amended): the generic `Option<T>` decoder reads a 4-byte tag and
treats 0 as "present, decode T next" and any nonzero tag as "absent, no
further bytes"; but the null check on the value slot inside a
control-option response uses the opposite convention: a null-check word of
0 means the value is absent, and any nonzero word means the value is
present and is decoded next. -/
theorem c2_pointer_tag :
    (∀ (α : Type) (dec : Decoder α) (bytes : List Byte) (w : Int) (rest : List Byte),
      readI32 bytes = .ok (w, rest) →
        (w ≠ 0 → decodeOption dec bytes = .ok (none, rest)) ∧
        (w = 0 → ∀ v r, dec rest = .ok (v, r) →
          decodeOption dec bytes = .ok (some v, r))) ∧
    (∀ (d : OptionDescriptor) (bytes : List Byte) (info : Nat) (b1 : List Byte)
      (vt : Int) (b2 : List Byte) (vs : Int) (b3 : List Byte) (w : Nat) (b4 : List Byte),
      decodeSetInfo bytes = .ok (info, b1) →
      readI32 b1 = .ok (vt, b2) →
      readI32 b2 = .ok (vs, b3) →
      d.size = vs →
      readU32 b3 = .ok (w, b4) →
        (w = 0 → d.read_value bytes = .ok (⟨none, info⟩, b4)) ∧
        (w ≠ 0 → ∀ res r2, d.read_value bytes = .ok (res, r2) → res.value.isSome)) := by
  constructor
  · intro α dec bytes w rest h
    constructor
    · intro hw
      simp only [decodeOption, h]
      rw [if_neg hw]
    · intro hw v r hv
      simp only [decodeOption, h, hv]
      rw [if_pos hw]
  · intro d bytes info b1 vt b2 vs b3 w b4 hInfo hVt hVs hsz hW
    have hnn : ¬(d.size ≠ vs) := by simp [hsz]
    constructor
    · intro hw
      simp only [OptionDescriptor.read_value, hInfo, hVt, hVs]
      rw [if_neg hnn]
      simp only [hW]
      rw [if_pos hw]
    · intro hw res r2 hres
      simp only [OptionDescriptor.read_value, hInfo, hVt, hVs] at hres
      rw [if_neg hnn] at hres
      simp only [hW] at hres
      rw [if_neg hw] at hres
      cases d <;> split at hres <;> (try split at hres) <;>
        simp_all [Option.isSome] <;>
        (obtain ⟨hres1, hres2⟩ := hres
         subst hres1
         rfl)

/-- C3 counterexample: decoding an array of rule-B-wrapped integers with
declared count 2 whose final element is **present** (tag 0, value 7)
succeeds and silently drops that element, returning only [some 5]; the
claim requires this decode to fail with an error. -/
theorem c3_counterexample :
    decodeVec (decodeOption decodeI32)
      [0, 0, 0, 2, 0, 0, 0, 0, 0, 0, 0, 5, 0, 0, 0, 0, 0, 0, 0, 7] =
      .ok ([some 5], []) :=
  rfl

/-- C3 (amended): the array decoder reads a 4-byte signed count n, decodes
n elements with the element type's own decoder (rule-B wrapping only when
the element type itself is optional), performs no absence check on any
element — in particular a present final element never makes the decode
fail — and unconditionally returns the first n-1 decoded elements in wire
order, silently discarding the last slot. -/
theorem c3_array_truncation (α : Type) (dec : Decoder α) (bytes : List Byte)
    (n : Int) (rest : List Byte) (elems : List α) (r2 : List Byte)
    (h1 : readI32 bytes = .ok (n, rest))
    (h2 : decodeN dec n.toNat rest = .ok (elems, r2))
    (h3 : 1 ≤ n) (h4 : n < 2147483648) :
    decodeVec dec bytes = .ok (elems.take (n.toNat - 1), r2) := by
  simp only [decodeVec, h1, h2]
  have ht : truncArg n = n.toNat - 1 := by
    unfold truncArg
    omega
  rw [ht]

/-- C3 witness: a count-3 array of rule-B integers whose terminator slot is
absent decodes, via the amended theorem, to its first two elements. -/
theorem c3_witness :
    decodeVec (decodeOption decodeI32)
      [0, 0, 0, 3, 0, 0, 0, 0, 0, 0, 0, 5, 0, 0, 0, 0, 0, 0, 0, 7, 0, 0, 0, 9] =
      .ok ([some 5, some 7], []) :=
  c3_array_truncation (Option Int) (decodeOption decodeI32) _ 3 _
    [some 5, some 7, none] [] rfl rfl (by decide) (by decide)

/-- C2 witness: instantiating the amended theorem — a nonzero tag word 2
makes the generic decoder yield "absent", and a zero null-check word makes
the control-option value slot yield an absent value. -/
theorem c2_witness :
    decodeOption decodeI32 [0, 0, 0, 2] = .ok (none, []) ∧
    OptionDescriptor.read_value testDesc
        [0, 0, 0, 0, 0, 0, 0, 1, 0, 0, 0, 4, 0, 0, 0, 0] = .ok (⟨none, 0⟩, []) :=
  ⟨(c2_pointer_tag.1 Int decodeI32 [0, 0, 0, 2] 2 [] rfl).1 (by decide),
   (c2_pointer_tag.2 testDesc [0, 0, 0, 0, 0, 0, 0, 1, 0, 0, 0, 4, 0, 0, 0, 0]
      0 [0, 0, 0, 1, 0, 0, 0, 4, 0, 0, 0, 0] 1 [0, 0, 0, 4, 0, 0, 0, 0] 4 [0, 0, 0, 0]
      0 [] rfl rfl rfl rfl rfl).1 rfl⟩

/-- C4 counterexample: converting the wire code 12 does not return a typed
error — it panics (`panic!("Unknown status {}!")`), i.e. the program
crashes instead of handing the caller a library `Error` value. -/
theorem c4_counterexample :
    Status.fromI32 12 = .error (.panicked (statusPanicMsg 12)) :=
  rfl

/-- C4 (amended): wire codes 0 through 11 map bijectively onto the twelve
`Status` variants (`Status.code` is the inverse), and any wire value
outside 0..11 makes the conversion panic — a program abort, not a typed
error returned to the caller. -/
theorem c4_status_mapping :
    (∀ s : Status, Status.fromI32 (Status.code s) = .ok s) ∧
    (∀ s : Status, 0 ≤ Status.code s ∧ Status.code s ≤ 11) ∧
    (∀ (v : Int) (s : Status), Status.fromI32 v = .ok s → v = Status.code s) ∧
    (∀ v : Int, v < 0 ∨ 11 < v →
      Status.fromI32 v = .error (.panicked (statusPanicMsg v))) := by
  refine ⟨?_, ?_, ?_, ?_⟩
  · intro s
    cases s <;> rfl
  · intro s
    cases s <;> exact ⟨by decide, by decide⟩
  · intro v s h
    by_cases hv : v < 0 ∨ 11 < v
    · rw [fromI32_out_of_range v hv] at h
      exact absurd h (by simp)
    · push_neg at hv
      obtain ⟨h0, h11⟩ := hv
      interval_cases v <;>
        (injection h with h2
         subst h2
         rfl)
  · exact fromI32_out_of_range

/-- C4 witness: the amended theorem applied at code 4 (Invalid) and at the
out-of-range code 13. -/
theorem c4_witness :
    Status.fromI32 4 = .ok .Invalid ∧
    Status.fromI32 13 = .error (.panicked (statusPanicMsg 13)) :=
  ⟨c4_status_mapping.1 .Invalid,
   c4_status_mapping.2.2.2 13 (Or.inr (by decide))⟩

/-- C5 counterexample: a NUL-free string of length exactly 2147483647
(`i32::MAX`, hence "representable as a 32-bit signed value") does not round
trip.  `write_string` accepts it — the length check is strict — but the
32-bit `len + 1` overflows, so the emitted length word is `-2147483648`
(wrap-around; a debug build would abort instead, failing the round trip
too), and the rule-A decoder maps the non-positive length to "absent",
not to the original string. -/
theorem c5_counterexample :
    write_string (List.replicate 2147483647 97) =
      .ok (writeI32 (-2147483648) ++ List.replicate 2147483647 97 ++ [0]) ∧
    decodeOptString (writeI32 (-2147483648) ++ List.replicate 2147483647 97 ++ [0]) =
      .ok (none, List.replicate 2147483647 97 ++ [0]) ∧
    (none : Option (List Byte)) ≠ some (List.replicate 2147483647 97) := by
  have hl : ((List.replicate 2147483647 (97 : Byte)).length : Int) = 2147483647 := by
    rw [List.length_replicate]
    norm_num
  refine ⟨?_, ?_, fun h => Option.noConfusion h⟩
  · rw [write_string_ok _ (le_of_eq hl)]
    rw [hl]
    have hwrap : wrapI32 (2147483647 + 1) = -2147483648 := by
      norm_num [wrapI32]
    rw [hwrap]
  · rw [List.append_assoc]
    rw [decodeOptString_eq _ (-2147483648) _
      (readI32_writeI32 _ _ (by norm_num) (by norm_num))]
    rw [if_pos (by norm_num)]

/-- C5 (amended): for every NUL-free UTF-8 string of length at most
2147483646 (`i32::MAX - 1`; at exactly `i32::MAX` the 32-bit `len + 1`
in the encoder overflows and the round trip fails), encode-then-decode
yields the original string with the whole encoding consumed; rule-B
encode-absent then decode yields absent (with the placeholder word left
unread); and encoding `None : Option<i32>` writes exactly the big-endian
words 00000001 00000000. -/
theorem c5_round_trip :
    (∀ s : List Byte, validUtf8 s = true → (∀ b ∈ s, b ≠ 0) →
      (s.length : Int) ≤ 2147483646 →
      ∃ enc, write_string s = .ok enc ∧ decodeOptString enc = .ok (some s, [])) ∧
    (∀ (α : Type) (dec : Decoder α),
      decodeOption dec (optionWriteTo (none : Option α)) = .ok (none, writeI32 0)) ∧
    optionWriteTo (none : Option Int) = [0, 0, 0, 1, 0, 0, 0, 0] := by
  refine ⟨?_, ?_, rfl⟩
  · intro s hu hn hlen
    refine ⟨_, write_string_ok s (by omega), ?_⟩
    have hw : wrapI32 ((s.length : Int) + 1) = (s.length : Int) + 1 :=
      wrapI32_eq _ (by omega) (by omega)
    rw [hw, List.append_assoc]
    have hns := decodeOptString_nulstop ((s.length : Int) + 1) s []
      (by omega) (by omega) (by omega) hn
    rw [if_pos hu] at hns
    exact hns
  · intro α dec
    rfl

/-- C5 witness: the amended round trip applied to the concrete two-byte
string "ab" and to a concrete rule-B absent value. -/
theorem c5_witness :
    (∃ enc, write_string [97, 98] = .ok enc ∧
      decodeOptString enc = .ok (some [97, 98], [])) ∧
    decodeOption decodeI32 (optionWriteTo (none : Option Int)) = .ok (none, writeI32 0) :=
  ⟨c5_round_trip.1 [97, 98] (by decide) (by decide) (by decide),
   c5_round_trip.2.1 Int decodeI32⟩

/-- C6: the derived wire size of a descriptor is 4 for Boolean, the `size`
field for Integer and Fixed, `max_length` for String, and 0 for Button and
Group; and `read_value` returns a result only when the value-size word on
the wire equals this derived size — on any mismatch the `assert_eq!` fires
and the operation fails without returning a value. -/
theorem c6_descriptor_size :
    ((∀ (nm ti de : List Byte) (u : OptionUnit) (c : Nat),
        (OptionDescriptor.Boolean nm ti de u c).size = 4) ∧
     (∀ (nm ti de : List Byte) (u : OptionUnit) (sz : Int) (c : Nat)
        (con : Option NumericalConstraint),
        (OptionDescriptor.Integer nm ti de u sz c con).size = sz) ∧
     (∀ (nm ti de : List Byte) (u : OptionUnit) (sz : Int) (c : Nat)
        (con : Option NumericalConstraint),
        (OptionDescriptor.Fixed nm ti de u sz c con).size = sz) ∧
     (∀ (nm ti de : List Byte) (u : OptionUnit) (ml : Int) (c : Nat)
        (con : Option StringListConstraint),
        (OptionDescriptor.String nm ti de u ml c con).size = ml) ∧
     (∀ (nm ti de : List Byte) (u : OptionUnit) (c : Nat),
        (OptionDescriptor.Button nm ti de u c).size = 0) ∧
     (∀ ti : List Byte, (OptionDescriptor.Group ti).size = 0)) ∧
    (∀ (d : OptionDescriptor) (bytes : List Byte) (info : Nat) (b1 : List Byte)
      (vt : Int) (b2 : List Byte) (vs : Int) (b3 : List Byte),
      decodeSetInfo bytes = .ok (info, b1) →
      readI32 b1 = .ok (vt, b2) →
      readI32 b2 = .ok (vs, b3) →
      vs ≠ d.size →
      d.read_value bytes = .error (.panicked assertSizeMsg)) ∧
    (∀ (d : OptionDescriptor) (bytes : List Byte) (info : Nat) (b1 : List Byte)
      (vt : Int) (b2 : List Byte) (vs : Int) (b3 : List Byte)
      (res : ControlOptionResult) (r2 : List Byte),
      decodeSetInfo bytes = .ok (info, b1) →
      readI32 b1 = .ok (vt, b2) →
      readI32 b2 = .ok (vs, b3) →
      d.read_value bytes = .ok (res, r2) →
      vs = d.size) := by
  refine ⟨⟨fun _ _ _ _ _ => rfl, fun _ _ _ _ _ _ _ => rfl, fun _ _ _ _ _ _ _ => rfl,
    fun _ _ _ _ _ _ _ => rfl, fun _ _ _ _ _ => rfl, fun _ => rfl⟩, ?_, ?_⟩
  · intro d bytes info b1 vt b2 vs b3 h1 h2 h3 hne
    simp only [OptionDescriptor.read_value, h1, h2, h3]
    rw [if_pos (Ne.symm hne)]
  · intro d bytes info b1 vt b2 vs b3 res r2 h1 h2 h3 hok
    by_contra hne
    simp only [OptionDescriptor.read_value, h1, h2, h3] at hok
    rw [if_pos (Ne.symm hne)] at hok
    simp at hok

/-- C6 witness: the Integer descriptor of size 4 against a response whose
value-size word is 5 fails with the assertion panic. -/
theorem c6_witness :
    OptionDescriptor.read_value testDesc
        [0, 0, 0, 0, 0, 0, 0, 1, 0, 0, 0, 5] = .error (.panicked assertSizeMsg) :=
  c6_descriptor_size.2.1 testDesc [0, 0, 0, 0, 0, 0, 0, 1, 0, 0, 0, 5]
    0 [0, 0, 0, 1, 0, 0, 0, 5] 1 [0, 0, 0, 5] 5 [] rfl rfl rfl (by decide)

/-- C7 counterexample: decoding a string of declared length 4 from the
payload 97 00 98 99 stops consuming at the NUL: the result is "a" but the
bytes 98 99 of the declared 4-byte payload are left unread on the stream,
contradicting "exactly n bytes are read from the stream". -/
theorem c7_counterexample :
    decodeOptString [0, 0, 0, 4, 97, 0, 98, 99] = .ok (some [97], [98, 99]) ∧
    ([98, 99] : List Byte) ≠ [] :=
  ⟨rfl, by decide⟩

/-- C7 (amended): rule-A string decode — a length word n ≤ 0 yields absent
(never an error, never an empty string); for n > 0 bytes are consumed one
at a time and consumption stops at the first NUL byte (which is consumed
and discarded), so any bytes after the NUL within the declared n-byte
window remain unread on the stream; with no NUL in the window exactly n
bytes are consumed; the collected bytes are the result, interpreted as
UTF-8, and a non-UTF-8 payload is a decode error. -/
theorem c7_string_decode :
    (∀ (bytes : List Byte) (n : Int) (rest : List Byte),
      readI32 bytes = .ok (n, rest) → n ≤ 0 →
      decodeOptString bytes = .ok (none, rest)) ∧
    (∀ (n : Int) (pre post : List Byte),
      0 < n → n < 2147483648 → pre.length < n.toNat → (∀ b ∈ pre, b ≠ 0) →
      validUtf8 pre = true →
      decodeOptString (writeI32 n ++ (pre ++ 0 :: post)) = .ok (some pre, post)) ∧
    (∀ (n : Int) (s post : List Byte),
      0 < n → n < 2147483648 → s.length = n.toNat → (∀ b ∈ s, b ≠ 0) →
      validUtf8 s = true →
      decodeOptString (writeI32 n ++ (s ++ post)) = .ok (some s, post)) ∧
    (∀ (n : Int) (s post : List Byte),
      0 < n → n < 2147483648 → s.length = n.toNat → (∀ b ∈ s, b ≠ 0) →
      validUtf8 s = false →
      decodeOptString (writeI32 n ++ (s ++ post)) = .error .fromUtf8Error) := by
  refine ⟨?_, ?_, ?_, ?_⟩
  · intro bytes n rest h hn
    rw [decodeOptString_eq _ n _ h, if_pos hn]
  · intro n pre post h0 h1 h2 h3 hu
    rw [decodeOptString_nulstop n pre post h0 h1 h2 h3, if_pos hu]
  · intro n s post h0 h1 h2 h3 hu
    rw [decodeOptString_full n s post h0 h1 h2 h3, if_pos hu]
  · intro n s post h0 h1 h2 h3 hu
    rw [decodeOptString_full n s post h0 h1 h2 h3, if_neg (by simp [hu])]

/-- C7 witness: the amended theorem applied to concrete streams — a
negative length yields absent; a NUL at index 1 of a 4-byte window leaves
two bytes unread; a full 2-byte window is consumed exactly; the non-UTF-8
byte 255 is a decode error. -/
theorem c7_witness :
    decodeOptString [255, 255, 255, 255, 7] = .ok (none, [7]) ∧
    decodeOptString (writeI32 4 ++ ([97] ++ 0 :: [98, 99])) = .ok (some [97], [98, 99]) ∧
    decodeOptString (writeI32 2 ++ ([97, 98] ++ [])) = .ok (some [97, 98], []) ∧
    decodeOptString (writeI32 1 ++ ([255] ++ [])) = .error .fromUtf8Error :=
  ⟨c7_string_decode.1 [255, 255, 255, 255, 7] (-1) [7] (by rfl) (by decide),
   c7_string_decode.2.1 4 [97] [98, 99] (by decide) (by decide) (by decide)
     (by decide) (by decide),
   c7_string_decode.2.2.1 2 [97, 98] [] (by decide) (by decide) (by decide)
     (by decide) (by decide),
   c7_string_decode.2.2.2 1 [255] [] (by decide) (by decide) (by decide)
     (by decide) (by decide)⟩

/-- C8 counterexample: decoding an optional string from a 2-byte stream —
a short read of the length word — does not return a transport/IO error: the
source reads this word with `.unwrap()`, so the program panics. -/
theorem c8_counterexample :
    decodeOptString [0, 0] = .error (.panicked unwrapMsg) ∧
    Err.panicked unwrapMsg ≠ Err.ioError :=
  ⟨rfl, by decide⟩

/-- C8 (amended): a short read in the primitive codecs (i32, u32, bool)
surfaces as a returned IO error; but the length/tag word reads of the
string, optional and array decoders, the dummy word in `close_device`, the
handle word in `open_device` and the version word in `init` are performed
with `.unwrap()` and a short read there panics instead of returning an
error. -/
theorem c8_short_reads :
    (∀ bytes : List Byte, bytes.length < 4 → decodeI32 bytes = .error .ioError) ∧
    (∀ bytes : List Byte, bytes.length < 4 → decodeU32 bytes = .error .ioError) ∧
    (∀ bytes : List Byte, bytes.length < 4 → decodeBool bytes = .error .ioError) ∧
    (∀ bytes : List Byte, bytes.length < 4 →
      decodeOptString bytes = .error (.panicked unwrapMsg)) ∧
    (∀ (α : Type) (dec : Decoder α) (bytes : List Byte), bytes.length < 4 →
      decodeOption dec bytes = .error (.panicked unwrapMsg)) ∧
    (∀ (α : Type) (dec : Decoder α) (bytes : List Byte), bytes.length < 4 →
      decodeVec dec bytes = .error (.panicked unwrapMsg)) ∧
    (∀ (handle : Int) (bytes : List Byte), bytes.length < 4 →
      (close_device handle bytes).1 = .error (.panicked unwrapMsg)) ∧
    (∀ nm tail : List Byte, (nm.length : Int) ≤ 2147483647 → tail.length < 4 →
      (open_device nm (writeI32 0 ++ tail)).1 = .error (.panicked unwrapMsg)) ∧
    (∀ (v : Int) (tail : List Byte), 0 ≤ v → v ≤ 11 → tail.length < 4 →
      (init (writeI32 v ++ tail)).1 = .error (.panicked unwrapMsg)) := by
  refine ⟨readI32_short, readU32_short, ?_, ?_, ?_, ?_, ?_, ?_, ?_⟩
  · intro bytes h
    simp only [decodeBool, readU32_short bytes h]
  · intro bytes h
    simp only [decodeOptString, readI32_short bytes h]
  · intro α dec bytes h
    simp only [decodeOption, readI32_short bytes h]
  · intro α dec bytes h
    simp only [decodeVec, readI32_short bytes h]
  · intro handle bytes h
    simp only [close_device, readI32_short bytes h]
  · intro nm tail hnm htail
    have hck : check_success_status (writeI32 0 ++ tail) = .ok ((), tail) := by
      unfold check_success_status read_status
      rw [readI32_writeI32 0 tail (by norm_num) (by norm_num)]
      rfl
    simp only [open_device, write_string_ok nm hnm, hck, readI32_short tail htail]
  · intro v tail h0 h1 htail
    obtain ⟨s, hs⟩ := fromI32_ok_of_range v h0 h1
    simp only [init, readI32_writeI32 v tail (by omega) (by omega), hs,
      readU32_short tail htail]

/-- C8 witness: the amended theorem applied to a 2-byte stream for
`close_device`, a 1-byte stream for the rule-B optional decoder, and an
`init` stream whose version word after a Success status is a single byte. -/
theorem c8_witness :
    (close_device 0 [9, 9]).1 = .error (.panicked unwrapMsg) ∧
    decodeOption decodeI32 [1] = .error (.panicked unwrapMsg) ∧
    (init (writeI32 0 ++ [7])).1 = .error (.panicked unwrapMsg) :=
  ⟨c8_short_reads.2.2.2.2.2.2.1 0 [9, 9] (by decide),
   c8_short_reads.2.2.2.2.1 Int decodeI32 [1] (by decide),
   c8_short_reads.2.2.2.2.2.2.2.2 0 [7] (by decide) (by decide) (by decide)⟩

/-- C9 counterexample: `init` on a stream whose status word is 4 (Invalid)
followed by a version word completes successfully — it returns unit, having
consumed the version word — instead of surfacing the non-Success status as
a protocol error; the result of `check_success_status` is discarded with
`.ok()`. -/
theorem c9_counterexample :
    init [0, 0, 0, 4, 0, 0, 0, 77] = (.ok [], initWritten) :=
  rfl

/-- C9 (amended): `init` writes the handshake word 0, the version word
0x01000003 and the identity string "Foobar", reads the status word, but
discards the status check's result: for every status code 0 through 11 —
Success or not — it proceeds to read the server version word and returns
normally, surfacing nothing to the caller (only a status word outside 0..11
or a short read panics). -/
theorem c9_init_swallows_status (v : Int) (tail : List Byte)
    (h0 : 0 ≤ v) (h1 : v ≤ 11) (hlen : 4 ≤ tail.length) :
    init (writeI32 v ++ tail) = (.ok (tail.drop 4), initWritten) := by
  obtain ⟨s, hs⟩ := fromI32_ok_of_range v h0 h1
  obtain ⟨u, hu⟩ := readU32_of_length tail hlen
  simp only [init, readI32_writeI32 v tail (by omega) (by omega), hs, hu]

/-- C9 witness: the amended theorem at status code 4 (Invalid) with a
4-byte version word. -/
theorem c9_witness :
    init (writeI32 4 ++ [0, 0, 0, 9]) = (.ok [], initWritten) :=
  c9_init_swallows_status 4 [0, 0, 0, 9] (by decide) (by decide) (by decide)

/-- C10: the no-constraint decoder rejects every nonzero tag with an
`InvalidSaneFieldValue` error carrying the diagnostic text and the raw tag;
the numerical-constraint decoder accepts only tags 0, 1, 2 and the
string-list-constraint decoder only tags 0, 3, rejecting anything else the
same way; and at descriptor level a Boolean/Button/Group descriptor whose
constraint tag is nonzero, an Integer/Fixed descriptor whose tag is outside
{0,1,2}, and a String descriptor whose tag is outside {0,3} all fail to
decode with that error. -/
theorem c10_constraint_exclusivity :
    (∀ (bytes : List Byte) (t : Int) (rest : List Byte),
      readI32 bytes = .ok (t, rest) → t ≠ 0 →
      decodeNoConstraint bytes = .error (.invalidSaneFieldValue noConstraintMsg t)) ∧
    (∀ (bytes : List Byte) (t : Int) (rest : List Byte),
      readI32 bytes = .ok (t, rest) → t ≠ 0 → t ≠ 1 → t ≠ 2 →
      decodeNumericalConstraint bytes =
        .error (.invalidSaneFieldValue numConstraintMsg t)) ∧
    (∀ (bytes : List Byte) (t : Int) (rest : List Byte),
      readI32 bytes = .ok (t, rest) → t ≠ 0 → t ≠ 3 →
      decodeStringListConstraint bytes =
        .error (.invalidSaneFieldValue strConstraintMsg t)) ∧
    (∀ (bytes : List Byte) (nm : List Byte) (b1 : List Byte) (ti : List Byte)
      (b2 : List Byte) (de : List Byte) (b3 : List Byte) (kind : OptionValueType)
      (b4 : List Byte) (u : OptionUnit) (b5 : List Byte) (sz : Int) (b6 : List Byte)
      (cap : Nat) (b7 : List Byte) (t : Int) (b8 : List Byte),
      decodeOptString bytes = .ok (some nm, b1) →
      decodeOptString b1 = .ok (some ti, b2) →
      decodeOptString b2 = .ok (some de, b3) →
      decodeOptionValueType b3 = .ok (kind, b4) →
      (kind = .Boolean ∨ kind = .Button ∨ kind = .Group) →
      decodeOptionUnit b4 = .ok (u, b5) →
      readI32 b5 = .ok (sz, b6) →
      decodeCapabilities b6 = .ok (cap, b7) →
      readI32 b7 = .ok (t, b8) →
      t ≠ 0 →
      decodeOptionDescriptor bytes = .error (.invalidSaneFieldValue noConstraintMsg t)) ∧
    (∀ (bytes : List Byte) (nm : List Byte) (b1 : List Byte) (ti : List Byte)
      (b2 : List Byte) (de : List Byte) (b3 : List Byte) (kind : OptionValueType)
      (b4 : List Byte) (u : OptionUnit) (b5 : List Byte) (sz : Int) (b6 : List Byte)
      (cap : Nat) (b7 : List Byte) (t : Int) (b8 : List Byte),
      decodeOptString bytes = .ok (some nm, b1) →
      decodeOptString b1 = .ok (some ti, b2) →
      decodeOptString b2 = .ok (some de, b3) →
      decodeOptionValueType b3 = .ok (kind, b4) →
      (kind = .Integer ∨ kind = .Fixed) →
      decodeOptionUnit b4 = .ok (u, b5) →
      readI32 b5 = .ok (sz, b6) →
      decodeCapabilities b6 = .ok (cap, b7) →
      readI32 b7 = .ok (t, b8) →
      t ≠ 0 → t ≠ 1 → t ≠ 2 →
      decodeOptionDescriptor bytes = .error (.invalidSaneFieldValue numConstraintMsg t)) ∧
    (∀ (bytes : List Byte) (nm : List Byte) (b1 : List Byte) (ti : List Byte)
      (b2 : List Byte) (de : List Byte) (b3 : List Byte)
      (b4 : List Byte) (u : OptionUnit) (b5 : List Byte) (sz : Int) (b6 : List Byte)
      (cap : Nat) (b7 : List Byte) (t : Int) (b8 : List Byte),
      decodeOptString bytes = .ok (some nm, b1) →
      decodeOptString b1 = .ok (some ti, b2) →
      decodeOptString b2 = .ok (some de, b3) →
      decodeOptionValueType b3 = .ok (.String, b4) →
      decodeOptionUnit b4 = .ok (u, b5) →
      readI32 b5 = .ok (sz, b6) →
      decodeCapabilities b6 = .ok (cap, b7) →
      readI32 b7 = .ok (t, b8) →
      t ≠ 0 → t ≠ 3 →
      decodeOptionDescriptor bytes = .error (.invalidSaneFieldValue strConstraintMsg t)) := by
  have hnc : ∀ (b7 : List Byte) (t : Int) (b8 : List Byte),
      readI32 b7 = .ok (t, b8) → t ≠ 0 →
      decodeNoConstraint b7 = .error (.invalidSaneFieldValue noConstraintMsg t) := by
    intro b7 t b8 h ht
    simp only [decodeNoConstraint, h]
    rw [if_neg ht]
  have hnum : ∀ (b7 : List Byte) (t : Int) (b8 : List Byte),
      readI32 b7 = .ok (t, b8) → t ≠ 0 → t ≠ 1 → t ≠ 2 →
      decodeNumericalConstraint b7 =
        .error (.invalidSaneFieldValue numConstraintMsg t) := by
    intro b7 t b8 h h0 h1 h2
    simp only [decodeNumericalConstraint, h]
    rw [if_neg h0, if_neg h1, if_neg h2]
  have hstr : ∀ (b7 : List Byte) (t : Int) (b8 : List Byte),
      readI32 b7 = .ok (t, b8) → t ≠ 0 → t ≠ 3 →
      decodeStringListConstraint b7 =
        .error (.invalidSaneFieldValue strConstraintMsg t) := by
    intro b7 t b8 h h0 h3
    simp only [decodeStringListConstraint, h]
    rw [if_neg h0, if_neg h3]
  refine ⟨hnc, hnum, hstr, ?_, ?_, ?_⟩
  · intro bytes nm b1 ti b2 de b3 kind b4 u b5 sz b6 cap b7 t b8
      hn ht hd hk hkind hu hsz hcap htag htne
    rcases hkind with h | h | h <;> subst h <;>
      simp only [decodeOptionDescriptor, hn, ht, hd, hk, hu, hsz, hcap,
        hnc b7 t b8 htag htne]
  · intro bytes nm b1 ti b2 de b3 kind b4 u b5 sz b6 cap b7 t b8
      hn ht hd hk hkind hu hsz hcap htag ht0 ht1 ht2
    rcases hkind with h | h <;> subst h <;>
      simp only [decodeOptionDescriptor, hn, ht, hd, hk, hu, hsz, hcap,
        hnum b7 t b8 htag ht0 ht1 ht2]
  · intro bytes nm b1 ti b2 de b3 b4 u b5 sz b6 cap b7 t b8
      hn ht hd hk hu hsz hcap htag ht0 ht3
    simp only [decodeOptionDescriptor, hn, ht, hd, hk, hu, hsz, hcap,
      hstr b7 t b8 htag ht0 ht3]

/-- C10 witness: a complete Boolean-descriptor stream (strings "a", type 0,
unit 0, size 4, empty capabilities) whose constraint tag is 2 fails to
decode with the no-constraint error carrying the raw tag. -/
theorem c10_witness :
    decodeOptionDescriptor
        ([0, 0, 0, 2, 97, 0] ++ [0, 0, 0, 2, 97, 0] ++ [0, 0, 0, 2, 97, 0] ++
          [0, 0, 0, 0] ++ [0, 0, 0, 0] ++ [0, 0, 0, 4] ++ [0, 0, 0, 0] ++ [0, 0, 0, 2]) =
      .error (.invalidSaneFieldValue noConstraintMsg 2) :=
  c10_constraint_exclusivity.2.2.2.1 _ [97]
    ([0, 0, 0, 2, 97, 0] ++ [0, 0, 0, 2, 97, 0] ++
      [0, 0, 0, 0] ++ [0, 0, 0, 0] ++ [0, 0, 0, 4] ++ [0, 0, 0, 0] ++ [0, 0, 0, 2])
    [97]
    ([0, 0, 0, 2, 97, 0] ++
      [0, 0, 0, 0] ++ [0, 0, 0, 0] ++ [0, 0, 0, 4] ++ [0, 0, 0, 0] ++ [0, 0, 0, 2])
    [97]
    ([0, 0, 0, 0] ++ [0, 0, 0, 0] ++ [0, 0, 0, 4] ++ [0, 0, 0, 0] ++ [0, 0, 0, 2])
    .Boolean
    ([0, 0, 0, 0] ++ [0, 0, 0, 4] ++ [0, 0, 0, 0] ++ [0, 0, 0, 2])
    .None
    ([0, 0, 0, 4] ++ [0, 0, 0, 0] ++ [0, 0, 0, 2])
    4
    ([0, 0, 0, 0] ++ [0, 0, 0, 2])
    0
    [0, 0, 0, 2]
    2 []
    (by rfl) (by rfl) (by rfl) (by rfl) (Or.inl rfl) (by rfl) (by rfl) (by rfl)
    (by rfl) (by decide)

end SaneRs
